import Mathlib

/-!
Shallow embedding of the AnonCam face-tracking core
(`MediapipeWrapper/src/FaceTracker.cpp` and its header) in Lean 4.

Conventions of the embedding:
* C++ `float` values and arithmetic are modelled by the real numbers `ℝ`;
  `std::cos`, `std::sin`, `std::atan2` by `Real.cos`, `Real.sin` and an
  `atan2` defined below following the `<cmath>` specification.
* The row-major flat arrays of the source keep their flat indexing:
  a 3x3 entry `m[i*3+j]` is `m i j`, a 4x4 entry `matrix[row*4+col]` is the
  function value at the flat index `row*4+col : Fin 16`.
* `std::vector<Landmark>` is `List Landmark`; `v[i]` on an index the code has
  bounds-checked is `List.getD i defaultLandmark`.
* The PIMPL object with its mutex-guarded `lastResult_` is explicit state
  passing: each member function maps a state to (result, state).  The mutex
  serialises calls, so single-call behaviour is the sequential semantics.
* C++ value-initialisation / the member initialisers of `FaceResult`
  (`hasFace = false`, `confidence = 0.0f`, empty vector) give the all-zero
  default values `defaultLandmark`, `defaultHeadPose`, `defaultKeyPoints`,
  `defaultFaceResult`.
* A `CVPixelBufferRef` is `Option Frame`; a null buffer is `none`.
-/

namespace AnonCam

noncomputable section

/-- Embedding of `std::atan2(y, x)` from `<cmath>`: the angle of the vector
(x, y) in (-pi, pi], via `Real.arctan` with the standard quadrant fixups. -/
def atan2 (y x : ℝ) : ℝ :=
  if 0 < x then Real.arctan (y / x)
  else if x < 0 then
    (if 0 ≤ y then Real.arctan (y / x) + Real.pi
     else Real.arctan (y / x) - Real.pi)
  else
    (if 0 < y then Real.pi / 2
     else if y < 0 then -(Real.pi / 2)
     else 0)

/-- Embedding of `struct Landmark` from FaceTracker.h: one normalized 3D point. -/
structure Landmark where
  x : ℝ
  y : ℝ
  z : ℝ

/-- The all-zero landmark (C++ zero/value initialisation). -/
def defaultLandmark : Landmark := ⟨0, 0, 0⟩

/-- Embedding of `struct Matrix3x3` from FaceTracker.cpp (anonymous namespace):
row-major 3x3 matrix, entry `m[i*3+j]` modelled as `m i j`. -/
structure Matrix3x3 where
  m : Fin 3 → Fin 3 → ℝ

/-- Embedding of `Matrix3x3()` / `Matrix3x3::identity()`: zero-filled with the diagonal
`m[0] = m[4] = m[8] = 1`. -/
def Matrix3x3.identity : Matrix3x3 :=
  ⟨fun i j => if i = j then 1 else 0⟩

/-- Embedding of `Matrix3x3::rotationX(angle)`: starts from the identity and sets
`m[4] = c`, `m[5] = -s`, `m[7] = s`, `m[8] = c`. -/
def Matrix3x3.rotationX (angle : ℝ) : Matrix3x3 :=
  let c := Real.cos angle
  let s := Real.sin angle
  ⟨fun i j =>
    if i = 1 ∧ j = 1 then c
    else if i = 1 ∧ j = 2 then -s
    else if i = 2 ∧ j = 1 then s
    else if i = 2 ∧ j = 2 then c
    else Matrix3x3.identity.m i j⟩

/-- Embedding of `Matrix3x3::rotationY(angle)`: starts from the identity and sets
`m[0] = c`, `m[2] = s`, `m[6] = -s`, `m[8] = c`. -/
def Matrix3x3.rotationY (angle : ℝ) : Matrix3x3 :=
  let c := Real.cos angle
  let s := Real.sin angle
  ⟨fun i j =>
    if i = 0 ∧ j = 0 then c
    else if i = 0 ∧ j = 2 then s
    else if i = 2 ∧ j = 0 then -s
    else if i = 2 ∧ j = 2 then c
    else Matrix3x3.identity.m i j⟩

/-- Embedding of `Matrix3x3::rotationZ(angle)`: starts from the identity and sets
`m[0] = c`, `m[1] = -s`, `m[3] = s`, `m[4] = c`. -/
def Matrix3x3.rotationZ (angle : ℝ) : Matrix3x3 :=
  let c := Real.cos angle
  let s := Real.sin angle
  ⟨fun i j =>
    if i = 0 ∧ j = 0 then c
    else if i = 0 ∧ j = 1 then -s
    else if i = 1 ∧ j = 0 then s
    else if i = 1 ∧ j = 1 then c
    else Matrix3x3.identity.m i j⟩

/-- Embedding of `Matrix3x3::operator*`: `result.m[i*3+j] = sum over k of
m[i*3+k] * other.m[k*3+j]` (the accumulator starts at 0). -/
def Matrix3x3.mul (a b : Matrix3x3) : Matrix3x3 :=
  ⟨fun i j => a.m i 0 * b.m 0 j + a.m i 1 * b.m 1 j + a.m i 2 * b.m 2 j⟩

/-- Embedding of `struct HeadPose` from FaceTracker.h: `translation[3]` (tx, ty, tz),
`rotation[3]` (pitch, yaw, roll in radians), and the row-major
`modelMatrix[16]`. -/
structure HeadPose where
  translation : Fin 3 → ℝ
  rotation : Fin 3 → ℝ
  modelMatrix : Fin 16 → ℝ

/-- The all-zero head pose (C++ zero/value initialisation). -/
def defaultHeadPose : HeadPose :=
  ⟨fun _ => 0, fun _ => 0, fun _ => 0⟩

/-- Embedding of `FaceResult::KeyPoints` from FaceTracker.h: eight named landmarks. -/
structure KeyPoints where
  leftEye : Landmark
  rightEye : Landmark
  noseTip : Landmark
  upperLip : Landmark
  chin : Landmark
  leftEar : Landmark
  rightEar : Landmark
  forehead : Landmark

/-- The all-zero key-point collection (C++ zero/value initialisation). -/
def defaultKeyPoints : KeyPoints :=
  ⟨defaultLandmark, defaultLandmark, defaultLandmark, defaultLandmark,
   defaultLandmark, defaultLandmark, defaultLandmark, defaultLandmark⟩

/-- Embedding of `struct FaceResult` from FaceTracker.h. -/
structure FaceResult where
  hasFace : Bool
  confidence : ℝ
  landmarks : List Landmark
  pose : HeadPose
  keyPoints : KeyPoints

/-- Embedding of `FaceResult{}`: the all-default result (`hasFace = false`,
`confidence = 0.0f`, empty landmark vector, zero pose and key points). -/
def defaultFaceResult : FaceResult :=
  ⟨false, 0, [], defaultHeadPose, defaultKeyPoints⟩

/-- Embedding of `FaceTracker::Config` from FaceTracker.h. -/
structure Config where
  maxNumFaces : ℤ
  minDetectionConfidence : ℝ
  minTrackingConfidence : ℝ
  enableSegmentation : Bool
  useGPU : Bool

/-- The default-constructed `Config` (member initialisers of the header). -/
def defaultConfig : Config := ⟨1, 0.5, 0.5, false, false⟩

/-- A decoded video frame standing in for a non-null `CVPixelBufferRef`:
dimensions plus arbitrary pixel content. -/
structure Frame where
  width : ℕ
  height : ℕ
  pixels : List ℕ

/-- One landmark of the stub mesh generated in `Impl::processFrame`:
`u = (i % 23) / 22`, `v = (i / 23) / 20` (integer division before the
float division, as in the source), `angle = u * 2 * pi`,
`radiusX = faceWidth * 0.5 * sin(v*pi)` with `faceWidth = 0.3`,
`x = 0.5 + radiusX * cos(angle)`, `y = 0.5 + (v - 0.5) * faceHeight`
with `faceHeight = 0.4`, `z = cos(v*pi) * 0.1`. -/
def mockLandmark (i : ℕ) : Landmark :=
  let centerX : ℝ := 0.5
  let centerY : ℝ := 0.5
  let faceWidth : ℝ := 0.3
  let faceHeight : ℝ := 0.4
  let u : ℝ := ((i % 23 : ℕ) : ℝ) / 22
  let v : ℝ := ((i / 23 : ℕ) : ℝ) / 20
  let angle : ℝ := u * 2 * Real.pi
  let radiusX : ℝ := faceWidth * 0.5 * Real.sin (v * Real.pi)
  { x := centerX + radiusX * Real.cos angle
    y := centerY + (v - 0.5) * faceHeight
    z := Real.cos (v * Real.pi) * 0.1 }

/-- The stub's full 478-point mesh (`kNumLandmarks = 478`), landmark `i`
computed from the index alone. -/
def mockLandmarks : List Landmark :=
  List.ofFn (fun i : Fin 478 => mockLandmark i)

/-- State of `FaceTracker::Impl`: the construction-time config and the
mutex-guarded `lastResult_` cache. -/
structure ImplState where
  config : Config
  lastResult : FaceResult

/-- The freshly constructed `Impl` (`lastResult_()` default-initialised). -/
def initImplState (config : Config) : ImplState :=
  ⟨config, defaultFaceResult⟩

/-- Embedding of `FaceTracker::Impl::processFrame`: under the lock, build a default
result with `hasFace = false`; if the buffer is null return it without
touching the cache; otherwise (the stub) set `hasFace = true`,
`confidence = 0.95`, generate the 478 mock landmarks, store the result as
`lastResult_`, and return it.  The frame's dimensions are read but the stub
uses neither them nor the pixel content nor the config. -/
def Impl.processFrame (s : ImplState) (pixelBuffer : Option Frame) :
    FaceResult × ImplState :=
  match pixelBuffer with
  | none => (defaultFaceResult, s)
  | some _ =>
    let result : FaceResult :=
      { hasFace := true
        confidence := 0.95
        landmarks := mockLandmarks
        pose := defaultHeadPose
        keyPoints := defaultKeyPoints }
    (result, { s with lastResult := result })

/-- Embedding of `FaceTracker::Impl::getLastResult`: a copy of the cache, under the lock. -/
def Impl.getLastResult (s : ImplState) : FaceResult :=
  s.lastResult

/-- Embedding of `FaceTracker::Impl::reset`: `lastResult_ = FaceResult{}` under the lock. -/
def Impl.reset (s : ImplState) : ImplState :=
  { s with lastResult := defaultFaceResult }

/-- Embedding of `namespace LandmarkIndex` constants of FaceTracker.cpp. -/
def LandmarkIndex.kLeftEye : ℕ := 33
def LandmarkIndex.kRightEye : ℕ := 263
def LandmarkIndex.kNoseTip : ℕ := 1
def LandmarkIndex.kUpperLip : ℕ := 13
def LandmarkIndex.kLowerLip : ℕ := 14
def LandmarkIndex.kChin : ℕ := 152
def LandmarkIndex.kLeftEar : ℕ := 234
def LandmarkIndex.kRightEar : ℕ := 454
def LandmarkIndex.kForehead : ℕ := 10

/-- Embedding of `FaceTracker::extractKeyPoints(landmarks, kp)`: if
`landmarks.size() < 478` return leaving `kp` untouched; otherwise copy the
landmark at each fixed index into the named field.  The by-reference output
parameter is modelled by passing the prior value in and the new value out. -/
def extractKeyPoints (landmarks : List Landmark) (kp : KeyPoints) : KeyPoints :=
  if landmarks.length < 478 then kp
  else
    { leftEye := landmarks.getD LandmarkIndex.kLeftEye defaultLandmark
      rightEye := landmarks.getD LandmarkIndex.kRightEye defaultLandmark
      noseTip := landmarks.getD LandmarkIndex.kNoseTip defaultLandmark
      upperLip := landmarks.getD LandmarkIndex.kUpperLip defaultLandmark
      chin := landmarks.getD LandmarkIndex.kChin defaultLandmark
      leftEar := landmarks.getD LandmarkIndex.kLeftEar defaultLandmark
      rightEar := landmarks.getD LandmarkIndex.kRightEar defaultLandmark
      forehead := landmarks.getD LandmarkIndex.kForehead defaultLandmark }

/-- Embedding of `FaceTracker::computeHeadPose(landmarks, pose)`: if
`landmarks.size() < 478` return leaving `pose` untouched; otherwise set
`rotation[1] = (eyeCenterX - 0.5) * 2.0` with
`eyeCenterX = (leftEye.x + rightEye.x) * 0.5`,
`rotation[0] = (eyeY - noseTip.y) * 1.5` with
`eyeY = (leftEye.y + rightEye.y) * 0.5`,
`rotation[2] = atan2(rightEye.y - leftEye.y, rightEye.x - leftEye.x)`, and
`translation = (noseTip.x - 0.5, noseTip.y - 0.5, noseTip.z)`.
The source also reads the chin landmark but never uses it.
`modelMatrix` is not touched here. -/
def computeHeadPose (landmarks : List Landmark) (pose : HeadPose) : HeadPose :=
  if landmarks.length < 478 then pose
  else
    let leftEye := landmarks.getD LandmarkIndex.kLeftEye defaultLandmark
    let rightEye := landmarks.getD LandmarkIndex.kRightEye defaultLandmark
    let eyeCenterX := (leftEye.x + rightEye.x) * 0.5
    let noseTip := landmarks.getD LandmarkIndex.kNoseTip defaultLandmark
    let eyeY := (leftEye.y + rightEye.y) * 0.5
    let dx := rightEye.x - leftEye.x
    let dy := rightEye.y - leftEye.y
    { pose with
      rotation := fun i =>
        if i = 0 then (eyeY - noseTip.y) * 1.5
        else if i = 1 then (eyeCenterX - 0.5) * 2.0
        else atan2 dy dx
      translation := fun i =>
        if i = 0 then noseTip.x - 0.5
        else if i = 1 then noseTip.y - 0.5
        else noseTip.z }

/-- Embedding of `FaceTracker::normalizeModelMatrix(pose, matrix)`: fill the 16 entries
with 0, set the diagonal (0, 5, 10, 15) to 1, overwrite the upper-left 3x3
block with `R = Rz * Ry * Rx` built from `rotation[0..2]`, then set
`matrix[12] = tx * 2.0`, `matrix[13] = -ty * 2.0`,
`matrix[14] = tz * 1.0 + 1.0`.  The output array is returned. -/
def normalizeModelMatrix (pose : HeadPose) : Fin 16 → ℝ :=
  let rx := Matrix3x3.rotationX (pose.rotation 0)
  let ry := Matrix3x3.rotationY (pose.rotation 1)
  let rz := Matrix3x3.rotationZ (pose.rotation 2)
  let r := (rz.mul ry).mul rx
  fun idx =>
    if idx = 0 then r.m 0 0
    else if idx = 1 then r.m 0 1
    else if idx = 2 then r.m 0 2
    else if idx = 4 then r.m 1 0
    else if idx = 5 then r.m 1 1
    else if idx = 6 then r.m 1 2
    else if idx = 8 then r.m 2 0
    else if idx = 9 then r.m 2 1
    else if idx = 10 then r.m 2 2
    else if idx = 12 then pose.translation 0 * 2.0
    else if idx = 13 then -pose.translation 1 * 2.0
    else if idx = 14 then pose.translation 2 * 1.0 + 1.0
    else if idx = 15 then 1.0
    else 0.0

/-- Embedding of `FaceTracker::processFrame`: delegate to the Impl, then — outside the
lock — if `result.hasFace`, derive the key points, the head pose and the
model matrix on the local copy and return it.  The cache keeps what the
Impl stored. -/
def FaceTracker.processFrame (s : ImplState) (pixelBuffer : Option Frame) :
    FaceResult × ImplState :=
  let step := Impl.processFrame s pixelBuffer
  let result := step.1
  if result.hasFace then
    let kp := extractKeyPoints result.landmarks result.keyPoints
    let pose := computeHeadPose result.landmarks result.pose
    let matrix := normalizeModelMatrix pose
    ({ result with
        keyPoints := kp
        pose := { pose with modelMatrix := matrix } }, step.2)
  else
    (result, step.2)

/-- Embedding of `FaceTracker::reset`: delegates to the Impl. -/
def FaceTracker.reset (s : ImplState) : ImplState :=
  Impl.reset s

/-- Embedding of `FaceTracker::getLastResult`: delegates to the Impl. -/
def FaceTracker.getLastResult (s : ImplState) : FaceResult :=
  Impl.getLastResult s

/-- Spec-side definition: the 4x4 identity matrix in row-major flat layout
(entries 0, 5, 10, 15 are 1, the rest 0). -/
def specIdentity4 : Fin 16 → ℝ :=
  fun i => if i = 0 ∨ i = 5 ∨ i = 10 ∨ i = 15 then 1 else 0

/-- Spec-side definition: the standard right-handed elementary rotation
about the X axis, as a Mathlib matrix. -/
def specRotX (θ : ℝ) : Matrix (Fin 3) (Fin 3) ℝ :=
  !![1, 0, 0;
     0, Real.cos θ, -Real.sin θ;
     0, Real.sin θ, Real.cos θ]

/-- Spec-side definition: the standard right-handed elementary rotation
about the Y axis, as a Mathlib matrix. -/
def specRotY (θ : ℝ) : Matrix (Fin 3) (Fin 3) ℝ :=
  !![Real.cos θ, 0, Real.sin θ;
     0, 1, 0;
     -Real.sin θ, 0, Real.cos θ]

/-- Spec-side definition: the standard right-handed elementary rotation
about the Z axis, as a Mathlib matrix. -/
def specRotZ (θ : ℝ) : Matrix (Fin 3) (Fin 3) ℝ :=
  !![Real.cos θ, -Real.sin θ, 0;
     Real.sin θ, Real.cos θ, 0;
     0, 0, 1]

/-- Concrete non-null frame used by closed witness statements. -/
def testFrame : Frame := ⟨640, 480, []⟩

/-- Concrete landmark list for the C2 witness: the spec's synthetic face
with left eye (0.35, 0.45, 0) at index 33, right eye (0.65, 0.45, 0) at
index 263 and nose tip (0.5, 0.55, 0) at index 1. -/
def testLms2 : List Landmark :=
  List.ofFn (fun i : Fin 478 =>
    if (i : ℕ) = 33 then ⟨0.35, 0.45, 0⟩
    else if (i : ℕ) = 263 then ⟨0.65, 0.45, 0⟩
    else if (i : ℕ) = 1 then ⟨0.5, 0.55, 0⟩
    else defaultLandmark)

/-- Concrete landmark list for the C3 witness: left eye (0.3, 0.5, 0) at
index 33 and right eye (0.7, 0.5, 0) at index 263. -/
def testLms3 : List Landmark :=
  List.ofFn (fun i : Fin 478 =>
    if (i : ℕ) = 33 then ⟨0.3, 0.5, 0⟩
    else if (i : ℕ) = 263 then ⟨0.7, 0.5, 0⟩
    else defaultLandmark)

/-- Flat row-major index of entry (i, j) of the upper-left 3x3 block of a
4x4 matrix: `i*4 + j`. -/
def blockIndex (i j : Fin 3) : Fin 16 :=
  ⟨(i : ℕ) * 4 + (j : ℕ), by have hi := i.isLt; have hj := j.isLt; omega⟩

end

/-! Helper lemmas shared by several claims. -/

theorem getD_ofFn {α : Type} {n : ℕ} (f : Fin n → α) (d : α) (i : ℕ)
    (h : i < n) : (List.ofFn f).getD i d = f ⟨i, h⟩ := by
  rw [List.getD_eq_getElem _ _ (by simpa [List.length_ofFn] using h)]
  simp [List.getElem_ofFn]

theorem mockLandmarks_length : mockLandmarks.length = 478 := by
  rw [mockLandmarks, List.length_ofFn]

theorem computeHeadPose_translation_one (lms : List Landmark)
    (pose : HeadPose) (hn : ¬lms.length < 478) :
    (computeHeadPose lms pose).translation 1 =
      (lms.getD 1 defaultLandmark).y - 0.5 := by
  simp [computeHeadPose, hn, LandmarkIndex.kNoseTip]

/-! Theorems for the claims. -/

/-- C6: for every head pose with translation (tx, ty, tz), the model matrix
builder writes `tx * 2.0` at flat index 12, `-ty * 2.0` at index 13 (the
vertical axis flipped), and `tz * 1.0 + 1.0` at index 14 (origin pushed one
unit in front of the camera). -/
theorem normalizeModelMatrix_translation_entries (pose : HeadPose) :
    normalizeModelMatrix pose 12 = pose.translation 0 * 2.0 ∧
    normalizeModelMatrix pose 13 = -pose.translation 1 * 2.0 ∧
    normalizeModelMatrix pose 14 = pose.translation 2 * 1.0 + 1.0 := by
  refine ⟨?_, ?_, ?_⟩ <;> simp [normalizeModelMatrix]

/-- C8: for every session state, `processFrame` on a null frame returns the
all-default result (in particular `hasFace = false`) by value rather than
faulting, and leaves the cached last result unchanged, so a subsequent
`getLastResult` returns the same value as before the call. -/
theorem processFrame_null_frame (s : ImplState) :
    FaceTracker.processFrame s none = (defaultFaceResult, s) ∧
    (FaceTracker.processFrame s none).1.hasFace = false ∧
    FaceTracker.getLastResult (FaceTracker.processFrame s none).2 =
      FaceTracker.getLastResult s := by
  refine ⟨?_, ?_, ?_⟩ <;>
    simp [FaceTracker.processFrame, Impl.processFrame, defaultFaceResult,
      FaceTracker.getLastResult, Impl.getLastResult]

/-- C9: for every session state, `reset` followed by `getLastResult`
returns the all-default FaceResult: `hasFace = false`, confidence 0 and
empty landmarks, regardless of what was cached before. -/
theorem reset_then_getLastResult (s : ImplState) :
    FaceTracker.getLastResult (FaceTracker.reset s) = defaultFaceResult ∧
    (FaceTracker.getLastResult (FaceTracker.reset s)).hasFace = false ∧
    (FaceTracker.getLastResult (FaceTracker.reset s)).confidence = 0 ∧
    (FaceTracker.getLastResult (FaceTracker.reset s)).landmarks = [] := by
  refine ⟨?_, ?_, ?_, ?_⟩ <;>
    simp [FaceTracker.getLastResult, FaceTracker.reset, Impl.reset,
      Impl.getLastResult, defaultFaceResult]

/-- C10: for every pair of non-null frames (any dimensions or pixel
content) and every pair of session states (hence any Config), `processFrame`
returns the identical result: `hasFace = true`, confidence 0.95, and the
same fixed 478-landmark sequence computed only from the landmark index —
the stubbed detector's output is independent of frame content and
configuration, and it never reports no face for a non-null frame. -/
theorem processFrame_stub_independent_of_input (s₁ s₂ : ImplState)
    (f₁ f₂ : Frame) :
    (FaceTracker.processFrame s₁ (some f₁)).1 =
      (FaceTracker.processFrame s₂ (some f₂)).1 ∧
    (Impl.processFrame s₁ (some f₁)).1 = (Impl.processFrame s₂ (some f₂)).1 ∧
    (Impl.processFrame s₁ (some f₁)).1.hasFace = true ∧
    (Impl.processFrame s₁ (some f₁)).1.confidence = 0.95 ∧
    (Impl.processFrame s₁ (some f₁)).1.landmarks = mockLandmarks ∧
    mockLandmarks.length = 478 ∧
    (∀ i : Fin 478, mockLandmarks.getD (i : ℕ) defaultLandmark
      = mockLandmark (i : ℕ)) := by
  refine ⟨?_, ?_, ?_, ?_, ?_, mockLandmarks_length, ?_⟩
  · simp [FaceTracker.processFrame, Impl.processFrame]
  · simp [Impl.processFrame]
  · rfl
  · rfl
  · simp [Impl.processFrame]
  · intro i
    rw [mockLandmarks, getD_ofFn _ _ _ i.isLt]

/-- C7: for every LandmarkSet shorter than 478 landmarks, the Key-Point
Selector leaves all KeyPoints fields at their default all-zero values with
no partial fill, and the Pose Estimator leaves the pose at its default
value — a silent degrade, never a propagated fault. -/
theorem short_landmarks_silent_degrade (lms : List Landmark)
    (h : lms.length < 478) :
    extractKeyPoints lms defaultKeyPoints = defaultKeyPoints ∧
    computeHeadPose lms defaultHeadPose = defaultHeadPose := by
  constructor <;> simp [extractKeyPoints, computeHeadPose, h]

/-- Witness for C7 at the two concrete lengths named by the spec: the empty
landmark list and a list of exactly 477 landmarks. -/
theorem short_landmarks_silent_degrade_witness :
    extractKeyPoints [] defaultKeyPoints = defaultKeyPoints ∧
    computeHeadPose [] defaultHeadPose = defaultHeadPose ∧
    extractKeyPoints (List.replicate 477 ⟨0.1, 0.2, 0.3⟩) defaultKeyPoints
      = defaultKeyPoints ∧
    computeHeadPose (List.replicate 477 ⟨0.1, 0.2, 0.3⟩) defaultHeadPose
      = defaultHeadPose := by
  have h0 := short_landmarks_silent_degrade [] (by norm_num)
  have h477 := short_landmarks_silent_degrade
    (List.replicate 477 ⟨0.1, 0.2, 0.3⟩) (by norm_num)
  exact ⟨h0.1, h0.2, h477.1, h477.2⟩

/-- C2: for every landmark list of length at least 478, `computeHeadPose`
sets yaw (`rotation 1`) to `((leftEye.x + rightEye.x)/2 - 0.5) * 2.0`,
pitch (`rotation 0`) to `((leftEye.y + rightEye.y)/2 - noseTip.y) * 1.5`,
and translation to `(noseTip.x - 0.5, noseTip.y - 0.5, noseTip.z)`, where
leftEye, rightEye, noseTip are the landmarks at indices 33, 263, 1. -/
theorem computeHeadPose_yaw_pitch_translation (lms : List Landmark)
    (pose : HeadPose) (h : 478 ≤ lms.length) :
    (computeHeadPose lms pose).rotation 1 =
      (((lms.getD 33 defaultLandmark).x + (lms.getD 263 defaultLandmark).x)
        / 2 - 0.5) * 2.0 ∧
    (computeHeadPose lms pose).rotation 0 =
      (((lms.getD 33 defaultLandmark).y + (lms.getD 263 defaultLandmark).y)
        / 2 - (lms.getD 1 defaultLandmark).y) * 1.5 ∧
    (computeHeadPose lms pose).translation 0 =
      (lms.getD 1 defaultLandmark).x - 0.5 ∧
    (computeHeadPose lms pose).translation 1 =
      (lms.getD 1 defaultLandmark).y - 0.5 ∧
    (computeHeadPose lms pose).translation 2 =
      (lms.getD 1 defaultLandmark).z := by
  have hn : ¬lms.length < 478 := by omega
  refine ⟨?_, ?_, ?_, ?_, ?_⟩ <;>
    simp [computeHeadPose, hn, LandmarkIndex.kLeftEye,
      LandmarkIndex.kRightEye, LandmarkIndex.kNoseTip,
      -mul_eq_mul_right_iff] <;>
    try ring

/-- C3: for every landmark list of length at least 478, `computeHeadPose`
sets roll (`rotation 2`) to exactly `atan2(rightEye.y - leftEye.y,
rightEye.x - leftEye.x)` for the landmarks at indices 33 (left eye) and
263 (right eye); when the eye line runs left-to-right (dx positive) this
is exactly `arctan (dy / dx)`, the true in-plane angle of the
left-eye-to-right-eye vector, not an approximation. -/
theorem computeHeadPose_roll (lms : List Landmark) (pose : HeadPose)
    (h : 478 ≤ lms.length) :
    (computeHeadPose lms pose).rotation 2 =
      atan2 ((lms.getD 263 defaultLandmark).y - (lms.getD 33 defaultLandmark).y)
        ((lms.getD 263 defaultLandmark).x - (lms.getD 33 defaultLandmark).x) ∧
    (0 < (lms.getD 263 defaultLandmark).x - (lms.getD 33 defaultLandmark).x →
      (computeHeadPose lms pose).rotation 2 =
        Real.arctan
          (((lms.getD 263 defaultLandmark).y - (lms.getD 33 defaultLandmark).y)
            / ((lms.getD 263 defaultLandmark).x
                - (lms.getD 33 defaultLandmark).x))) := by
  have hn : ¬lms.length < 478 := by omega
  have h1 : (computeHeadPose lms pose).rotation 2 =
      atan2 ((lms.getD 263 defaultLandmark).y - (lms.getD 33 defaultLandmark).y)
        ((lms.getD 263 defaultLandmark).x - (lms.getD 33 defaultLandmark).x) := by
    simp [computeHeadPose, hn, LandmarkIndex.kLeftEye, LandmarkIndex.kRightEye]
  refine ⟨h1, fun hdx => ?_⟩
  rw [h1]
  unfold atan2
  rw [if_pos hdx]

/-- Witness for C3 at the spec's synthetic eye pair: eyes level, roll 0. -/
theorem computeHeadPose_roll_witness :
    478 ≤ testLms3.length ∧
    (computeHeadPose testLms3 defaultHeadPose).rotation 2 = 0 := by
  have hlen : testLms3.length = 478 := by rw [testLms3, List.length_ofFn]
  have h33 : testLms3.getD 33 defaultLandmark = ⟨0.3, 0.5, 0⟩ := by
    rw [testLms3, getD_ofFn _ defaultLandmark 33 (by norm_num)]
    norm_num
  have h263 : testLms3.getD 263 defaultLandmark = ⟨0.7, 0.5, 0⟩ := by
    rw [testLms3, getD_ofFn _ defaultLandmark 263 (by norm_num)]
    norm_num
  obtain ⟨hgen, harctan⟩ :=
    computeHeadPose_roll testLms3 defaultHeadPose (by omega)
  simp only [h33, h263] at harctan
  refine ⟨by omega, ?_⟩
  rw [harctan (by norm_num)]
  norm_num [Real.arctan_zero]

/-- Witness for C2 at the spec's synthetic face: yaw 0, pitch -0.15,
translation (0, 0.05, 0). -/
theorem computeHeadPose_yaw_pitch_translation_witness :
    478 ≤ testLms2.length ∧
    (computeHeadPose testLms2 defaultHeadPose).rotation 1 = 0 ∧
    (computeHeadPose testLms2 defaultHeadPose).rotation 0 = -0.15 ∧
    (computeHeadPose testLms2 defaultHeadPose).translation 0 = 0 ∧
    (computeHeadPose testLms2 defaultHeadPose).translation 1 = 0.05 ∧
    (computeHeadPose testLms2 defaultHeadPose).translation 2 = 0 := by
  have hlen : testLms2.length = 478 := by rw [testLms2, List.length_ofFn]
  have h33 : testLms2.getD 33 defaultLandmark = ⟨0.35, 0.45, 0⟩ := by
    rw [testLms2, getD_ofFn _ defaultLandmark 33 (by norm_num)]
    norm_num
  have h263 : testLms2.getD 263 defaultLandmark = ⟨0.65, 0.45, 0⟩ := by
    rw [testLms2, getD_ofFn _ defaultLandmark 263 (by norm_num)]
    norm_num
  have h1 : testLms2.getD 1 defaultLandmark = ⟨0.5, 0.55, 0⟩ := by
    rw [testLms2, getD_ofFn _ defaultLandmark 1 (by norm_num)]
    norm_num
  obtain ⟨m1, m2, m3, m4, m5⟩ :=
    computeHeadPose_yaw_pitch_translation testLms2 defaultHeadPose (by omega)
  simp only [h33, h263, h1] at m1 m2 m3 m4 m5
  refine ⟨by omega, ?_, ?_, ?_, ?_, ?_⟩
  · rw [m1]; try norm_num
  · rw [m2]; try norm_num
  · rw [m3]; try norm_num
  · rw [m4]; try norm_num
  · rw [m5]; try norm_num

/-- C4: for every head pose with zero rotation and zero translation, the
model matrix is the 4x4 identity in every entry except flat index 14,
which is 1.0 (the camera-offset term). -/
theorem normalizeModelMatrix_zero_pose (pose : HeadPose)
    (hr : ∀ i, pose.rotation i = 0) (ht : ∀ i, pose.translation i = 0)
    (i : Fin 16) :
    normalizeModelMatrix pose i = if i = 14 then 1 else specIdentity4 i := by
  fin_cases i <;>
    simp [normalizeModelMatrix, hr, ht, specIdentity4, Matrix3x3.mul,
      Matrix3x3.rotationX, Matrix3x3.rotationY, Matrix3x3.rotationZ,
      Matrix3x3.identity] <;>
    norm_num

/-- Witness for C4 at the all-zero pose, sampling the camera-offset entry,
a diagonal entry and an off-diagonal entry. -/
theorem normalizeModelMatrix_zero_pose_witness :
    normalizeModelMatrix defaultHeadPose 14 = 1 ∧
    normalizeModelMatrix defaultHeadPose 5 = specIdentity4 5 ∧
    normalizeModelMatrix defaultHeadPose 3 = specIdentity4 3 := by
  have h14 := normalizeModelMatrix_zero_pose defaultHeadPose
    (fun _ => rfl) (fun _ => rfl) 14
  have h5 := normalizeModelMatrix_zero_pose defaultHeadPose
    (fun _ => rfl) (fun _ => rfl) 5
  have h3 := normalizeModelMatrix_zero_pose defaultHeadPose
    (fun _ => rfl) (fun _ => rfl) 3
  refine ⟨?_, ?_, ?_⟩
  · rw [h14]; simp
  · rw [h5, if_neg (by decide)]
  · rw [h3, if_neg (by decide)]

/-- C1 counterexample: on a concrete run (fresh session, one non-null
frame), `processFrame` returns a result with `hasFace = true`, yet the
subsequent `getLastResult` is NOT equal to the returned result in every
field: the Impl caches the result before the outer `processFrame` derives
keyPoints, pose and model matrix on its local copy, so the cached pose
stays at the default (translation.y 0) while the returned pose has
translation.y -0.2. -/
theorem getLastResult_differs_from_returned_result :
    (FaceTracker.processFrame (initImplState defaultConfig)
      (some testFrame)).1.hasFace = true ∧
    FaceTracker.getLastResult
        (FaceTracker.processFrame (initImplState defaultConfig)
          (some testFrame)).2 ≠
      (FaceTracker.processFrame (initImplState defaultConfig)
        (some testFrame)).1 := by
  constructor
  · simp [FaceTracker.processFrame, Impl.processFrame]
  · intro heq
    have hL : (FaceTracker.getLastResult
        (FaceTracker.processFrame (initImplState defaultConfig)
          (some testFrame)).2).pose.translation 1 = 0 := by
      simp [FaceTracker.processFrame, Impl.processFrame,
        FaceTracker.getLastResult, Impl.getLastResult, defaultHeadPose]
    have hlen : ¬mockLandmarks.length < 478 := by
      rw [mockLandmarks_length]; omega
    have hnose : mockLandmarks.getD 1 defaultLandmark = mockLandmark 1 := by
      rw [mockLandmarks, getD_ofFn _ defaultLandmark 1 (by norm_num)]
    have hy : (mockLandmark 1).y = 0.3 := by
      simp [mockLandmark]
      norm_num
    have houter : ((FaceTracker.processFrame (initImplState defaultConfig)
        (some testFrame)).1).pose.translation 1 =
        (computeHeadPose mockLandmarks defaultHeadPose).translation 1 := by
      simp [FaceTracker.processFrame, Impl.processFrame]
    have hR : ((FaceTracker.processFrame (initImplState defaultConfig)
        (some testFrame)).1).pose.translation 1 = -0.2 := by
      rw [houter, computeHeadPose_translation_one _ _ hlen, hnose, hy]
      norm_num
    rw [heq] at hL
    have contra : (0 : ℝ) = -0.2 := hL.symm.trans hR
    norm_num at contra

/-- C1 (amended): after a single `processFrame` call on a session returns
a result r with `hasFace = true`, a subsequent `getLastResult` returns the
one result the Impl cached for that call: it equals r in hasFace,
confidence and landmarks, and its pose and keyPoints (hence model matrix)
are the pre-derivation defaults, because the session caches the result
before the key-point/pose/matrix derivation runs on the returned copy.
The cache is still exactly one produced result, never a value mixing
fields from different computations. -/
theorem getLastResult_is_cached_pre_derivation_result (s : ImplState)
    (pb : Option Frame) (r : FaceResult) (s' : ImplState)
    (hstep : FaceTracker.processFrame s pb = (r, s'))
    (hface : r.hasFace = true) :
    FaceTracker.getLastResult s' =
      { hasFace := r.hasFace, confidence := r.confidence,
        landmarks := r.landmarks, pose := defaultHeadPose,
        keyPoints := defaultKeyPoints } := by
  cases pb with
  | none =>
    have h1 : r = (FaceTracker.processFrame s none).1 := by rw [hstep]
    rw [h1] at hface
    simp [FaceTracker.processFrame, Impl.processFrame,
      defaultFaceResult] at hface
  | some f =>
    have h1 : r = (FaceTracker.processFrame s (some f)).1 := by rw [hstep]
    have h2 : s' = (FaceTracker.processFrame s (some f)).2 := by rw [hstep]
    subst h1
    subst h2
    simp [FaceTracker.processFrame, Impl.processFrame,
      FaceTracker.getLastResult, Impl.getLastResult]

/-- Witness for the amended C1 on a concrete run: a fresh session and one
non-null frame. -/
theorem getLastResult_is_cached_pre_derivation_result_witness :
    (FaceTracker.processFrame (initImplState defaultConfig)
      (some testFrame)).1.hasFace = true ∧
    FaceTracker.getLastResult
        (FaceTracker.processFrame (initImplState defaultConfig)
          (some testFrame)).2 =
      { hasFace := (FaceTracker.processFrame (initImplState defaultConfig)
          (some testFrame)).1.hasFace,
        confidence := (FaceTracker.processFrame (initImplState defaultConfig)
          (some testFrame)).1.confidence,
        landmarks := (FaceTracker.processFrame (initImplState defaultConfig)
          (some testFrame)).1.landmarks,
        pose := defaultHeadPose,
        keyPoints := defaultKeyPoints } := by
  have hface : (FaceTracker.processFrame (initImplState defaultConfig)
      (some testFrame)).1.hasFace = true := by
    simp [FaceTracker.processFrame, Impl.processFrame]
  exact ⟨hface,
    getLastResult_is_cached_pre_derivation_result
      (initImplState defaultConfig) (some testFrame) _ _ rfl hface⟩

set_option maxHeartbeats 1000000 in
theorem specRot_product (a b c : ℝ) :
    specRotZ c * specRotY b * specRotX a =
      !![Real.cos c * Real.cos b,
         Real.cos c * Real.sin b * Real.sin a - Real.sin c * Real.cos a,
         Real.cos c * Real.sin b * Real.cos a + Real.sin c * Real.sin a;
         Real.sin c * Real.cos b,
         Real.sin c * Real.sin b * Real.sin a + Real.cos c * Real.cos a,
         Real.sin c * Real.sin b * Real.cos a - Real.cos c * Real.sin a;
         -Real.sin b,
         Real.cos b * Real.sin a,
         Real.cos b * Real.cos a] := by
  ext i j
  fin_cases i <;> fin_cases j <;>
    simp [specRotX, specRotY, specRotZ, Matrix.mul_fin_three,
      Matrix.cons_val_zero, Matrix.cons_val_one, Matrix.cons_val_two,
      Matrix.head_cons, Matrix.tail_cons] <;>
    ring

/-- C5: for all rotation angles, the upper-left 3x3 block of the model
matrix equals the composition `R = Rz * Ry * Rx` of the standard
right-handed elementary rotations (as Mathlib matrices); in particular a
pose with rotation (0, 0, θ) yields an upper-left 2x2 block equal to the
standard 2D rotation by θ, for any translation and any prior matrix. -/
theorem normalizeModelMatrix_rotation_composition (pose : HeadPose)
    (i j : Fin 3) (θ : ℝ) (t : Fin 3 → ℝ) (mm : Fin 16 → ℝ) :
    normalizeModelMatrix pose (blockIndex i j) =
      (specRotZ (pose.rotation 2) * specRotY (pose.rotation 1) *
        specRotX (pose.rotation 0)) i j ∧
    (normalizeModelMatrix ⟨t, fun k => if k = 2 then θ else 0, mm⟩ 0
        = Real.cos θ ∧
      normalizeModelMatrix ⟨t, fun k => if k = 2 then θ else 0, mm⟩ 1
        = -Real.sin θ ∧
      normalizeModelMatrix ⟨t, fun k => if k = 2 then θ else 0, mm⟩ 4
        = Real.sin θ ∧
      normalizeModelMatrix ⟨t, fun k => if k = 2 then θ else 0, mm⟩ 5
        = Real.cos θ) := by
  constructor
  · rw [specRot_product]
    fin_cases i <;> fin_cases j <;>
      simp [normalizeModelMatrix, blockIndex, Matrix3x3.mul,
        Matrix3x3.rotationX, Matrix3x3.rotationY, Matrix3x3.rotationZ,
        Matrix3x3.identity, Matrix.cons_val_zero, Matrix.cons_val_one,
        Matrix.cons_val_two, Matrix.head_cons, Matrix.tail_cons] <;>
      ring
  · refine ⟨?_, ?_, ?_, ?_⟩ <;>
      simp [normalizeModelMatrix, Matrix3x3.mul, Matrix3x3.rotationX,
        Matrix3x3.rotationY, Matrix3x3.rotationZ, Matrix3x3.identity]

end AnonCam
